import Mathlib

/-!
# Verification of the CLI phonebook (`src/cli_bot.py`)

Shallow embedding of the list-of-dicts contact manager: the store is a
`List Contact` of `{name, phone}` pairs, the store operations
(`add_contact` as invoked by `main`, `change_contact`, `delete_contact`,
`search_contact`, `show_phonebook`) are pure Lean functions mirroring the
Python bodies, exceptions become an explicit `PyErr` value, and one
iteration of `main`'s dispatch loop becomes `dispatchStep`.

Error vocabulary of the specification maps to raised Python exceptions as
follows: `ContactNotFound` / `NoMatch` / `DuplicateContact` are
`ValueError`s with the messages the source formats; `InvalidPhoneFormat`
is the `ValueError` raised by the (externally defined) phone normalizer.
-/

namespace CliBot

/-- One contact of the list-of-dicts phonebook: a dict
`{"name": ..., "phone": ...}`. -/
structure Contact where
  name : String
  phone : String
deriving DecidableEq, Repr

/-- A raised Python exception, with its message. `input_error` catches
exactly `KeyError`, `ValueError` and `IndexError` (src lines 54-63). -/
inductive PyErr where
  | keyError (msg : String)
  | valueError (msg : String)
  | indexError (msg : String)
  | attributeError (msg : String)
deriving DecidableEq, Repr

/-- Python's `str.lower()` restricted to the ASCII case mapping, modelled
character by character so the kernel can evaluate it. -/
def pyLower (s : String) : String :=
  String.mk (s.toList.map Char.toLower)

/-- Python's substring test `pat in s` on the underlying character lists. -/
def infixOf (pat : List Char) : List Char → Bool
  | [] => pat.isEmpty
  | c :: cs => pat.isPrefixOf (c :: cs) || infixOf pat cs

/-- `strContains s pat` is Python's `pat in s`. -/
def strContains (s pat : String) : Bool :=
  infixOf pat.toList s.toList

/-- The case-insensitive name comparison
`contact["name"].lower() == name.lower()` used in `change_contact`,
`delete_contact` (src lines 109, 114, 132, 135). -/
def nameMatches (name : String) (c : Contact) : Bool :=
  pyLower c.name == pyLower name

/-- Modelled from the spec: `normalize_phone` is imported from
`normalize_phone.py`, which is not present under `src/`. Per §4.1 of the
spec, separator characters `-` and spaces are stripped, and the stripped
string is accepted when it starts with `0` or `+380` followed by exactly
9 digits; otherwise the normalizer fails with `InvalidPhoneFormat`
(raised as a `ValueError`). The accepted string itself is the canonical
form. -/
def normalize_phone (raw : String) : Except PyErr String :=
  let stripped := raw.toList.filter (fun c => !(c == '-' || c == ' '))
  let ok : Bool :=
    match stripped with
    | '0' :: rest => rest.length == 9 && rest.all Char.isDigit
    | '+' :: '3' :: '8' :: '0' :: rest => rest.length == 9 && rest.all Char.isDigit
    | _ => false
  if ok then Except.ok (String.mk stripped)
  else Except.error (PyErr.valueError s!"Invalid phone format: {raw}")

/-- The line `print(f"{contact['name']}: {contact['phone']}")`
(src lines 157, 176). -/
def printContact (c : Contact) : String :=
  s!"{c.name}: {c.phone}"

/-- `add_contact` exactly as `main` invokes it (src lines 68-92 with the
call at line 214): `main` passes `command[1]` as `name` and `command[2]`
— the phone STRING — as the `phonebook` parameter, while the actual
phonebook list is bound to `phones`. Hence `if name in phonebook` is a
substring test on the phone string, and on the other branch
`phonebook.add_record(record)` calls `add_record` on a `str`, raising an
`AttributeError` that `input_error` does not catch. -/
def add_contact_as_called (name phoneStr : String) :
    Except PyErr (List Contact × List String) :=
  if strContains phoneStr name then
    Except.error (PyErr.valueError s!"Contact {name} already exists.")
  else
    Except.error (PyErr.attributeError "str object has no attribute add_record")

/-- Replace the phone of the first record matching `name`
(the `for ... break` loop, src lines 113-116). -/
def updateFirstPhone (name p : String) : List Contact → List Contact
  | [] => []
  | c :: rest =>
      if nameMatches name c then Contact.mk c.name p :: rest
      else c :: updateFirstPhone name p rest

/-- `change_contact` (src lines 96-117), undecorated body: raises
`ValueError "Contact {name} not found."` when no record matches
case-insensitively, otherwise normalizes the new phone (propagating the
normalizer's failure), updates the first matching record and prints the
confirmation. The returned list is the mutated phonebook. -/
def change_contact (name newPhone : String) (phonebook : List Contact) :
    Except PyErr (List Contact × List String) :=
  if !(phonebook.any (nameMatches name)) then
    Except.error (PyErr.valueError s!"Contact {name} not found.")
  else
    match normalize_phone newPhone with
    | Except.error e => Except.error e
    | Except.ok p =>
        Except.ok (updateFirstPhone name p phonebook,
          [s!"Contact {name} updated.\nNew phone: {p}"])

/-- Remove the first record matching `name`
(the `for ... remove ... break` loop, src lines 134-138). -/
def removeFirst (name : String) : List Contact → List Contact
  | [] => []
  | c :: rest =>
      if nameMatches name c then rest
      else c :: removeFirst name rest

/-- `delete_contact` (src lines 120-138), undecorated body: raises
`ValueError "Contact {name} not found."` when no record matches
case-insensitively, otherwise removes the first matching record and
prints the confirmation. -/
def delete_contact (name : String) (phonebook : List Contact) :
    Except PyErr (List Contact × List String) :=
  if !(phonebook.any (nameMatches name)) then
    Except.error (PyErr.valueError s!"Contact {name} not found.")
  else
    Except.ok (removeFirst name phonebook, [s!"Contact {name} deleted."])

/-- The match condition of `search_contact` (src line 156):
`pattern.lower() in contact["name"].lower() or pattern in contact["phone"]`. -/
def searchMatches (pattern : String) (c : Contact) : Bool :=
  strContains (pyLower c.name) (pyLower pattern) || strContains c.phone pattern

/-- The `for` loop of `search_contact` (src lines 153-158): the printed
lines in store order, and the final value of the `found` flag. -/
def searchLoop (pattern : String) : List Contact → List String × Bool
  | [] => ([], false)
  | c :: rest =>
      let r := searchLoop pattern rest
      if searchMatches pattern c then (printContact c :: r.1, true) else r

/-- `search_contact` (src lines 141-161). NOTE: in the source this
function is NOT decorated with `input_error`. It prints every matching
record and raises `ValueError "Contact {pattern} not found."` when the
`found` flag stayed false. -/
def search_contact (pattern : String) (phonebook : List Contact) :
    Except PyErr (List String) :=
  let r := searchLoop pattern phonebook
  if r.2 then Except.ok r.1
  else Except.error (PyErr.valueError s!"Contact {pattern} not found.")

/-- The sort key comparison of `show_phonebook`: Python's `sorted(...,
key=lambda contact: contact["name"])` orders by the name string. -/
def nameLe (a b : Contact) : Prop :=
  a.name ≤ b.name

instance : DecidableRel nameLe := fun a b => inferInstanceAs (Decidable (a.name ≤ b.name))

instance : IsTotal Contact nameLe := ⟨fun a b => le_total a.name b.name⟩

instance : IsTrans Contact nameLe := ⟨fun _ _ _ h h2 => le_trans h h2⟩

/-- `show_phonebook` (src lines 164-176): prints every contact, in
name-sorted order when `sorted_` is true (`sorted` returns a fresh list
and leaves the store untouched), in insertion order otherwise. The
result is the list of printed lines. -/
def show_phonebook (phonebook : List Contact) (sorted_ : Bool) : List String :=
  let pb := if sorted_ then List.insertionSort nameLe phonebook else phonebook
  pb.map printContact

/-- What one loop iteration of `main` does next: re-loop, leave via
`break` ("Good bye!"), or die on an exception that reached the loop
body uncaught. -/
inductive Control where
  | cont
  | exit
  | crashed (e : PyErr)
deriving DecidableEq, Repr

/-- One iteration of `main`'s dispatch loop: what it printed, the
phonebook it leaves behind, how the loop proceeds, and whether a store
operation (`add_contact`, `change_contact`, `delete_contact`,
`search_contact`, `show_phonebook`) was invoked. -/
structure StepResult where
  output : List String
  store : List Contact
  control : Control
  invoked : Bool
deriving DecidableEq, Repr

/-- Python's `line.strip().split()`: split on whitespace runs, no empty
tokens. `acc` holds the current token's characters in reverse. -/
def tokenizeAux : List Char → List Char → List String
  | [], [] => []
  | [], acc => [String.mk acc.reverse]
  | c :: cs, acc =>
      if c.isWhitespace then
        match acc with
        | [] => tokenizeAux cs []
        | _ => String.mk acc.reverse :: tokenizeAux cs []
      else tokenizeAux cs (c :: acc)

/-- Tokenization of one input line (src line 201). -/
def tokenize (line : String) : List String :=
  tokenizeAux line.toList []

/-- Does `input_error` catch this exception (src lines 58-62)? -/
def caughtByInputError : PyErr → Bool
  | PyErr.keyError _ => true
  | PyErr.valueError _ => true
  | PyErr.indexError _ => true
  | PyErr.attributeError _ => false

/-- Run an `input_error`-decorated store operation from the loop body.
`main` discards the wrapper's return value, so a caught exception
produces NO printed output (the error message string is dropped); an
uncaught exception propagates out of the loop. -/
def runWrapped (pb : List Contact)
    (r : Except PyErr (List Contact × List String)) : StepResult :=
  match r with
  | Except.ok (pb2, out) => StepResult.mk out pb2 Control.cont true
  | Except.error e =>
      if caughtByInputError e then StepResult.mk [] pb Control.cont true
      else StepResult.mk [] pb (Control.crashed e) true

/-- Run the undecorated `search_contact` from the loop body: any raised
exception propagates uncaught. -/
def runSearch (pb : List Contact) (r : Except PyErr (List String)) :
    StepResult :=
  match r with
  | Except.ok out => StepResult.mk out pb Control.cont true
  | Except.error e => StepResult.mk [] pb (Control.crashed e) true

/-- One iteration of the dispatch loop of `main` (src lines 200-243),
applied to an already-tokenized command line. An empty token list makes
`command[0]` raise an uncaught `IndexError`. -/
def dispatchStep (tokens : List String) (pb : List Contact) : StepResult :=
  match tokens with
  | [] => StepResult.mk [] pb
      (Control.crashed (PyErr.indexError "list index out of range")) false
  | t0 :: _ =>
    let verb := pyLower t0
    if verb == "close" || verb == "exit" then
      StepResult.mk ["Good bye!"] pb Control.exit false
    else if verb == "hello" then
      StepResult.mk ["How can I help you?"] pb Control.cont false
    else if verb == "add" then
      match tokens with
      | [_, name, phone] => runWrapped pb (add_contact_as_called name phone)
      | _ => StepResult.mk ["Invalid command.", "Usage: add <name> <phone>"]
          pb Control.cont false
    else if verb == "change" then
      match tokens with
      | [_, name, phone] => runWrapped pb (change_contact name phone pb)
      | _ => StepResult.mk ["Invalid command.", "Usage: change <name> <phone>"]
          pb Control.cont false
    else if verb == "delete" then
      match tokens with
      | [_, name] => runWrapped pb (delete_contact name pb)
      | _ => StepResult.mk ["Invalid command.", "Usage: delete <name>"]
          pb Control.cont false
    else if verb == "search" then
      match tokens with
      | [_, pat] => runSearch pb (search_contact pat pb)
      | _ => StepResult.mk ["Invalid command.", "Usage: search <pattern>"]
          pb Control.cont false
    else if verb == "show" || verb == "all" then
      match tokens with
      | [_] => StepResult.mk (show_phonebook pb true) pb Control.cont true
      | [_, a] =>
          if a == "all" then
            StepResult.mk (show_phonebook pb true) pb Control.cont true
          else runSearch pb (search_contact a pb)
      | _ => StepResult.mk ["Invalid command.", "Usage: show [pattern]"]
          pb Control.cont false
    else
      StepResult.mk ["Invalid command.",
        "Available commands: hello, add, change, delete, search, show, close, exit"]
        pb Control.cont false

/-- Modelled from the spec: §4.3's `findRecord(name)` — the
case-insensitive exact lookup, failing with `ContactNotFound` if absent —
has no standalone function in `src/cli_bot.py` (the class-based variant
holding it is not under `src/`); its membership predicate is exactly the
one `change_contact`/`delete_contact` use (src lines 109, 132). -/
def find_record (name : String) (phonebook : List Contact) :
    Except PyErr Contact :=
  match phonebook.find? (nameMatches name) with
  | some c => Except.ok c
  | none => Except.error (PyErr.valueError s!"Contact {name} not found.")

/-- The arity table of §6 of the spec for the store-invoking commands:
`add`/`change` expect 3 tokens, `delete`/`search` 2, `show`/`all` 1-2.
`arityMismatch tokens` holds when the verb is one of these commands but
the token count is outside its arity. -/
def arityMismatch (tokens : List String) : Bool :=
  match tokens with
  | [] => false
  | t0 :: _ =>
    let v := pyLower t0
    ((v == "add" || v == "change") && !(tokens.length == 3)) ||
    ((v == "delete" || v == "search") && !(tokens.length == 2)) ||
    ((v == "show" || v == "all") && decide (3 ≤ tokens.length))

/-! ## Helper lemmas -/

theorem tokenizeAux_all_ws (cs : List Char)
    (h : cs.all Char.isWhitespace = true) : tokenizeAux cs [] = [] := by
  induction cs with
  | nil => rfl
  | cons c cs ih =>
      simp only [List.all_cons, Bool.and_eq_true] at h
      simp [tokenizeAux, h.1, ih h.2]

theorem updateFirstPhone_append (name p : String) (pre post : List Contact)
    (c : Contact) (hpre : pre.all (fun d => !(nameMatches name d)) = true)
    (hc : nameMatches name c = true) :
    updateFirstPhone name p (pre ++ c :: post) =
      pre ++ Contact.mk c.name p :: post := by
  induction pre with
  | nil => simp [updateFirstPhone, hc]
  | cons d pre ih =>
      simp only [List.all_cons, Bool.and_eq_true, Bool.not_eq_true'] at hpre
      simpa [updateFirstPhone, hpre.1] using ih (by simpa using hpre.2)

theorem removeFirst_append (name : String) (pre post : List Contact)
    (c : Contact) (hpre : pre.all (fun d => !(nameMatches name d)) = true)
    (hc : nameMatches name c = true) :
    removeFirst name (pre ++ c :: post) = pre ++ post := by
  induction pre with
  | nil => simp [removeFirst, hc]
  | cons d pre ih =>
      simp only [List.all_cons, Bool.and_eq_true, Bool.not_eq_true'] at hpre
      simpa [removeFirst, hpre.1] using ih (by simpa using hpre.2)

theorem any_append_of_match (name : String) (pre post : List Contact)
    (c : Contact) (hc : nameMatches name c = true) :
    (pre ++ c :: post).any (nameMatches name) = true := by
  simp [List.any_append, hc]

/-- Under the store invariant (pairwise distinct case-insensitive names,
spec §3), no record matching `name` survives `removeFirst name`. -/
theorem removeFirst_no_match (name : String) (pb : List Contact)
    (hinv : (pb.map fun c => pyLower c.name).Nodup) :
    ∀ d ∈ removeFirst name pb, nameMatches name d = false := by
  induction pb with
  | nil => intro d hd; simp [removeFirst] at hd
  | cons c rest ih =>
      simp only [List.map_cons, List.nodup_cons] at hinv
      by_cases hm : nameMatches name c = true
      · intro d hd
        rw [removeFirst, if_pos hm] at hd
        by_contra hdm
        rw [Bool.not_eq_false] at hdm
        have hcd : pyLower c.name = pyLower d.name := by
          have h1 : pyLower c.name = pyLower name := by
            simpa [nameMatches] using hm
          have h2 : pyLower d.name = pyLower name := by
            simpa [nameMatches] using hdm
          rw [h1, h2]
        exact hinv.1 (hcd ▸ List.mem_map_of_mem (fun c => pyLower c.name) hd)
      · intro d hd
        rw [removeFirst, if_neg hm] at hd
        rcases List.mem_cons.mp hd with rfl | hd
        · exact Bool.not_eq_true _ ▸ (Bool.eq_false_iff.mpr hm)
        · exact ih hinv.2 d hd

theorem searchLoop_eq (pattern : String) (pb : List Contact) :
    searchLoop pattern pb =
      ((pb.filter (searchMatches pattern)).map printContact,
        pb.any (searchMatches pattern)) := by
  induction pb with
  | nil => rfl
  | cons c rest ih =>
      by_cases hm : searchMatches pattern c = true
      · simp [searchLoop, ih, List.filter_cons, hm]
      · rw [Bool.not_eq_true] at hm
        simp [searchLoop, ih, List.filter_cons, hm]

/-! ## Claim theorems -/

/-- C1: the claim says every store-operation failure is caught at the
dispatch boundary, rendered as a printed message, and the loop continues.
The code violates this twice: `search_contact` is not decorated with
`input_error`, so `search Jane` on an empty store raises a `ValueError`
that escapes the loop (control is `crashed`, terminating the process
without `close`/`exit`); and for decorated operations such as `delete`,
`main` discards the error-message string that the wrapper returns, so the
caught failure produces no printed output at all. -/
theorem dispatch_search_failure_escapes :
    dispatchStep ["search", "Jane"] [] =
      StepResult.mk [] []
        (Control.crashed (PyErr.valueError "Contact Jane not found.")) true ∧
    dispatchStep ["delete", "Jane"] [] =
      StepResult.mk [] [] Control.cont true :=
  ⟨rfl, rfl⟩

/-- C2: the claim says a fresh name is inserted and findable afterwards.
In the code, `main` calls `add_contact(command[1], command[2], phonebook)`
while the signature is `add_contact(name, phonebook, phones, birthday)`,
binding the phone string to `phonebook`; `add` therefore dies on
`str.add_record` with an `AttributeError` that `input_error` does not
catch, the loop crashes, and nothing is inserted. -/
theorem dispatch_add_crashes :
    dispatchStep ["add", "John", "0991234567"] [] =
      StepResult.mk [] []
        (Control.crashed
          (PyErr.attributeError "str object has no attribute add_record"))
        true :=
  rfl

/-- C3: on a name with no case-insensitive match in the store,
`change_contact` fails with `ContactNotFound` (the `ValueError` with the
"not found" message) for EVERY `newPhone` — in particular also for
strings the normalizer would reject, so no phone normalization takes
place — and one dispatch-loop iteration of the `change` command leaves
the store exactly as it was. -/
theorem change_contact_absent_name (name newPhone : String)
    (pb : List Contact) (h : pb.any (nameMatches name) = false) :
    change_contact name newPhone pb =
      Except.error (PyErr.valueError s!"Contact {name} not found.") ∧
    (dispatchStep ["change", name, newPhone] pb).store = pb ∧
    (dispatchStep ["change", name, newPhone] pb).control = Control.cont := by
  have hcc : change_contact name newPhone pb =
      Except.error (PyErr.valueError s!"Contact {name} not found.") := by
    simp [change_contact, h]
  have hd : dispatchStep ["change", name, newPhone] pb =
      runWrapped pb (change_contact name newPhone pb) := rfl
  refine ⟨hcc, ?_, ?_⟩ <;> rw [hd, hcc] <;> rfl

theorem change_contact_absent_name_witness :
    ([] : List Contact).any (nameMatches "Jane") = false ∧
    (change_contact "Jane" "0987654321" [] =
        Except.error (PyErr.valueError "Contact Jane not found.") ∧
      (dispatchStep ["change", "Jane", "0987654321"] []).store = [] ∧
      (dispatchStep ["change", "Jane", "0987654321"] []).control =
        Control.cont) :=
  ⟨rfl, change_contact_absent_name "Jane" "0987654321" [] rfl⟩

/-- C4: when the store is `pre ++ c :: post` with `c` the first (and,
under the spec §3 invariant, only) record matching `name`
case-insensitively, and the new phone normalizes to `p`, `change_contact`
replaces exactly `c`'s phone with `p` (keeping its name) and every other
record — all of `pre` and all of `post` — is unchanged. -/
theorem change_contact_updates_exactly_one (name newPhone p : String)
    (pre post : List Contact) (c : Contact)
    (hpre : pre.all (fun d => !(nameMatches name d)) = true)
    (hc : nameMatches name c = true)
    (hn : normalize_phone newPhone = Except.ok p) :
    change_contact name newPhone (pre ++ c :: post) =
      Except.ok (pre ++ Contact.mk c.name p :: post,
        [s!"Contact {name} updated.\nNew phone: {p}"]) := by
  have hany := any_append_of_match name pre post c hc
  simp [change_contact, hany, hn,
    updateFirstPhone_append name p pre post c hpre hc]

theorem change_contact_updates_exactly_one_witness :
    ([Contact.mk "Amy" "0111111111"].all
        (fun d => !(nameMatches "JOHN" d)) = true ∧
      nameMatches "JOHN" (Contact.mk "John" "0111111111") = true ∧
      normalize_phone "0987654321" = Except.ok "0987654321") ∧
    change_contact "JOHN" "0987654321"
        [Contact.mk "Amy" "0111111111", Contact.mk "John" "0111111111"] =
      Except.ok ([Contact.mk "Amy" "0111111111",
          Contact.mk "John" "0987654321"],
        ["Contact JOHN updated.\nNew phone: 0987654321"]) :=
  ⟨⟨by decide, by decide, rfl⟩,
    change_contact_updates_exactly_one "JOHN" "0987654321" "0987654321"
      [Contact.mk "Amy" "0111111111"] [] (Contact.mk "John" "0111111111")
      (by decide) (by decide) rfl⟩

/-- C5: for a store satisfying the §3 invariant (at most one record per
case-insensitive name): deleting a name that has a match succeeds,
removing the first matching record, and a subsequent `find_record` of the
same name fails with `ContactNotFound`; deleting a name with no
case-insensitive match fails with `ContactNotFound`. -/
theorem delete_then_find_fails (name : String) (pb : List Contact)
    (hinv : (pb.map fun c => pyLower c.name).Nodup) :
    (pb.any (nameMatches name) = true →
      delete_contact name pb =
        Except.ok (removeFirst name pb, [s!"Contact {name} deleted."]) ∧
      find_record name (removeFirst name pb) =
        Except.error (PyErr.valueError s!"Contact {name} not found.")) ∧
    (pb.any (nameMatches name) = false →
      delete_contact name pb =
        Except.error (PyErr.valueError s!"Contact {name} not found.")) := by
  constructor
  · intro hany
    refine ⟨by simp [delete_contact, hany], ?_⟩
    have hnone : (removeFirst name pb).find? (nameMatches name) = none := by
      rw [List.find?_eq_none]
      intro d hd
      exact fun hdt => by
        have := removeFirst_no_match name pb hinv d hd
        rw [hdt] at this
        exact Bool.true_eq_false.mp this
    simp [find_record, hnone]
  · intro hany
    simp [delete_contact, hany]

theorem delete_then_find_fails_witness :
    ([Contact.mk "John" "0991234567"].map fun c => pyLower c.name).Nodup ∧
    ([Contact.mk "John" "0991234567"].any (nameMatches "JOHN") = true →
      delete_contact "JOHN" [Contact.mk "John" "0991234567"] =
        Except.ok (removeFirst "JOHN" [Contact.mk "John" "0991234567"],
          ["Contact JOHN deleted."]) ∧
      find_record "JOHN"
          (removeFirst "JOHN" [Contact.mk "John" "0991234567"]) =
        Except.error (PyErr.valueError "Contact JOHN not found.")) :=
  ⟨by decide,
    (delete_then_find_fails "JOHN" [Contact.mk "John" "0991234567"]
      (by decide)).1⟩

/-- C6: `search_contact pattern` prints exactly the records whose name
contains `pattern` as a case-insensitive substring or whose phone
contains `pattern` as a (case-sensitive) substring, in store order, and
raises `NoMatch` (the "not found" `ValueError`) precisely when that set
of records is empty. -/
theorem search_contact_filter_spec (pattern : String) (pb : List Contact) :
    search_contact pattern pb =
      if pb.filter (searchMatches pattern) = [] then
        Except.error (PyErr.valueError s!"Contact {pattern} not found.")
      else
        Except.ok ((pb.filter (searchMatches pattern)).map printContact) := by
  rw [search_contact, searchLoop_eq]
  by_cases hf : pb.filter (searchMatches pattern) = []
  · have hany : pb.any (searchMatches pattern) = false := by
      rw [Bool.eq_false_iff]
      intro hany
      rcases List.any_eq_true.mp hany with ⟨c, hc, hm⟩
      have : c ∈ pb.filter (searchMatches pattern) :=
        List.mem_filter.mpr ⟨hc, hm⟩
      rw [hf] at this
      exact List.not_mem_nil c this
    simp [hf, hany]
  · have hany : pb.any (searchMatches pattern) = true := by
      rcases List.exists_mem_of_ne_nil _ hf with ⟨c, hc⟩
      rcases List.mem_filter.mp hc with ⟨hcpb, hm⟩
      exact List.any_eq_true.mpr ⟨c, hcpb, hm⟩
    simp [hf, hany]

/-- C7: `show_phonebook` with `sorted_ = true` prints the records of some
rearrangement of the store that is ascending in the name order (so over
names {"Bob", "Amy"} it yields Amy before Bob), with `sorted_ = false` it
prints them in insertion order, and a `show` dispatch iteration leaves
the store's record sequence identical. -/
theorem show_phonebook_order_spec (pb : List Contact) :
    (∃ l : List Contact, List.Perm l pb ∧ List.Sorted nameLe l ∧
        show_phonebook pb true = l.map printContact) ∧
    show_phonebook pb false = pb.map printContact ∧
    (dispatchStep ["show"] pb).store = pb :=
  ⟨⟨List.insertionSort nameLe pb, List.perm_insertionSort nameLe pb,
      List.sorted_insertionSort nameLe pb, rfl⟩, rfl, rfl⟩

/-- C8, counterexample: `close now` has the recognized verb `close` with
a token count (2) different from its arity (1), yet the loop does not
print a usage message and does not continue — it prints the farewell and
terminates, refuting the claim at this input. -/
theorem dispatch_close_extra_token_exits :
    dispatchStep ["close", "now"] [] =
      StepResult.mk ["Good bye!"] [] Control.exit false ∧
    (dispatchStep ["close", "now"] []).control ≠ Control.cont :=
  ⟨rfl, by decide⟩

/-- C8, amended: for the store-invoking commands (`add`/`change`: 3
tokens, `delete`/`search`: 2 tokens, `show`/`all`: 1-2 tokens), a token
count outside the command's arity makes the dispatch iteration print the
"Invalid command." usage message and continue, leaving the store
unchanged and invoking no store operation. (`hello`, `close` and `exit`
ignore extra tokens: `hello x` greets, `close x` still terminates.) -/
theorem dispatch_arity_mismatch_usage (tokens : List String)
    (pb : List Contact) (h : arityMismatch tokens = true) :
    (dispatchStep tokens pb).output.head? = some "Invalid command." ∧
    (dispatchStep tokens pb).store = pb ∧
    (dispatchStep tokens pb).control = Control.cont ∧
    (dispatchStep tokens pb).invoked = false := by
  cases tokens with
  | nil => simp [arityMismatch] at h
  | cons t0 rest =>
    simp only [arityMismatch, Bool.or_eq_true, Bool.and_eq_true,
      beq_iff_eq, Bool.not_eq_true', beq_eq_false_iff_ne,
      decide_eq_true_eq, List.length_cons] at h
    rcases h with (⟨hv, hn⟩ | ⟨hv, hn⟩) | ⟨hv, hn⟩
    · rcases rest with _ | ⟨a, _ | ⟨b, _ | ⟨c, r⟩⟩⟩
      · rcases hv with hv | hv <;> simp [dispatchStep, hv]
      · rcases hv with hv | hv <;> simp [dispatchStep, hv]
      · exact absurd rfl hn
      · rcases hv with hv | hv <;> simp [dispatchStep, hv]
    · rcases rest with _ | ⟨a, _ | ⟨b, r⟩⟩
      · rcases hv with hv | hv <;> simp [dispatchStep, hv]
      · exact absurd rfl hn
      · rcases hv with hv | hv <;> simp [dispatchStep, hv]
    · rcases rest with _ | ⟨a, _ | ⟨b, r⟩⟩
      · simp at hn
      · simp at hn
      · rcases hv with hv | hv <;> simp [dispatchStep, hv]

theorem dispatch_arity_mismatch_usage_witness :
    arityMismatch ["add", "John"] = true ∧
    ((dispatchStep ["add", "John"] []).output.head? =
        some "Invalid command." ∧
      (dispatchStep ["add", "John"] []).store = [] ∧
      (dispatchStep ["add", "John"] []).control = Control.cont ∧
      (dispatchStep ["add", "John"] []).invoked = false) :=
  ⟨by decide, dispatch_arity_mismatch_usage ["add", "John"] [] (by decide)⟩

/-- C9: a line consisting only of whitespace tokenizes to the empty list,
and the dispatch iteration on it dies on the unhandled `IndexError` from
`command[0]`, printing nothing — in particular no "Good bye!" farewell —
and terminating the loop. -/
theorem blank_line_crashes_loop (line : String) (pb : List Contact)
    (h : line.toList.all Char.isWhitespace = true) :
    tokenize line = [] ∧
    dispatchStep (tokenize line) pb =
      StepResult.mk [] pb
        (Control.crashed (PyErr.indexError "list index out of range"))
        false ∧
    "Good bye!" ∉ (dispatchStep (tokenize line) pb).output := by
  have ht : tokenize line = [] := tokenizeAux_all_ws line.toList h
  refine ⟨ht, ?_, ?_⟩ <;> rw [ht] <;> simp [dispatchStep]

theorem blank_line_crashes_loop_witness :
    ("   ").toList.all Char.isWhitespace = true ∧
    (tokenize "   " = [] ∧
      dispatchStep (tokenize "   ") [] =
        StepResult.mk [] []
          (Control.crashed (PyErr.indexError "list index out of range"))
          false ∧
      "Good bye!" ∉ (dispatchStep (tokenize "   ") []).output) :=
  ⟨by decide, blank_line_crashes_loop "   " [] (by decide)⟩

/-- C10: when the store is `pre ++ c :: post` with `c` the first record
matching `name` case-insensitively, `delete_contact` removes exactly that
one record: the result store is `pre ++ post`, so any later records of
`post` that also match the name case-insensitively remain present. -/
theorem delete_removes_at_most_one (name : String)
    (pre post : List Contact) (c : Contact)
    (hpre : pre.all (fun d => !(nameMatches name d)) = true)
    (hc : nameMatches name c = true) :
    delete_contact name (pre ++ c :: post) =
      Except.ok (pre ++ post, [s!"Contact {name} deleted."]) := by
  have hany := any_append_of_match name pre post c hc
  simp [delete_contact, hany, removeFirst_append name pre post c hpre hc]

theorem delete_removes_at_most_one_witness :
    (([] : List Contact).all (fun d => !(nameMatches "john" d)) = true ∧
      nameMatches "john" (Contact.mk "John" "0111111111") = true) ∧
    delete_contact "john"
        [Contact.mk "John" "0111111111", Contact.mk "JOHN" "0222222222"] =
      Except.ok ([Contact.mk "JOHN" "0222222222"],
        ["Contact john deleted."]) :=
  ⟨⟨by decide, by decide⟩,
    delete_removes_at_most_one "john" []
      [Contact.mk "JOHN" "0222222222"] (Contact.mk "John" "0111111111")
      (by decide) (by decide)⟩

end CliBot
